import Mathlib

/-!
Verification development for the JNTMbot automation engine.

Shallow embedding of the parts of the program the specification talks
about: the screen-state classifier (`game_screen.py`), the lobby tracker
and job-lobby loop (`job_workflow.py`), the exception enumerations
(`gta_automator/exception.py`), the session-switch recovery ladder
(`online_workflow.py` and `session.py`), the health monitor
(`health_check.py`) and the backend supervisor (`steambot_utils.py`).

Modelling conventions:
* Python floats obtained from the monotonic clock are modelled as `ℚ`
  (only ordering and subtraction matter to the program).
* Python `int` is modelled as `ℤ` (the classifier returns `-1` sentinels).
* Exceptions are modelled as values of an error type returned through
  `Except`.  Besides the exception classes of the repository itself the error
  type has constructors for Python `AttributeError` (raised by
  `enum.EnumMeta.__getattr__` when an enum member name does not exist)
  and `NameError` (raised when an undefined global name is evaluated);
  both occur in the source.
* Side effects that the claims do not mention (logging, best-effort chat
  messages wrapped in `try/except: pass`, sleeping) are not modelled.
-/

/-! ## Python string primitives

`pyIsSubstr needle haystack` models the Python expression
`needle in haystack` (and `re.search` of the escaped literal `needle`):
it is true iff `needle` occurs contiguously in `haystack`.  The empty
string occurs in every string, as in Python. -/

def pyIsSubstrAux (needle : List Char) : List Char → Bool
  | [] => needle.isEmpty
  | c :: rest => needle.isPrefixOf (c :: rest) || pyIsSubstrAux needle rest

def pyIsSubstr (needle haystack : String) : Bool :=
  pyIsSubstrAux needle.data haystack.data

/-- Model of Python `haystack.count(needle)` for a nonempty `needle`:
the number of non-overlapping occurrences, scanning left to right.  The
first argument is fuel (the scan consumes at least one character per
step, so fuel equal to the text length is always enough); it makes the
recursion structural so that proofs can evaluate the function. -/
def pyCountAux (needle : List Char) : Nat → List Char → Nat
  | _, [] => 0
  | 0, _ => 0
  | fuel + 1, c :: rest =>
    if needle.isPrefixOf (c :: rest) then
      pyCountAux needle fuel (rest.drop (needle.length - 1)) + 1
    else
      pyCountAux needle fuel rest

/-- Python `text.count(needle)`; `"".count` style edge case included
(`text.count("") == len(text) + 1` in Python), though the program only
counts nonempty markers. -/
def pyCount (text needle : String) : Nat :=
  if needle = "" then text.data.length + 1
  else pyCountAux needle.data text.data.length text.data

/-! ## The exception module `gta_automator/exception.py`

The enumerations are transcribed member for member.  Because several
call sites in the repository access members by names that are *not*
declared in this module, each enumeration also gets a `memberByName`
function modelling the Python attribute access `EnumClass.NAME`: `some`
for a declared member, `none` (an `AttributeError` at runtime) for
anything else. -/

inductive OperationTimeoutContext
  | GAME_WINDOW_STARTUP
  | MAIN_MENU_LOAD
  | STORY_MODE_LOAD
  | JOIN_ONLINE_SESSION
  | WAIT_TEAMMATE
  | PLAYER_JOIN
  | RESPAWN_IN_AGENCY
  | JOB_SETUP_PANEL_OPEN
  | JOB_START
  | CHARACTER_LAND
deriving DecidableEq, Repr

def OperationTimeoutContext.memberByName : String → Option OperationTimeoutContext
  | "GAME_WINDOW_STARTUP" => some .GAME_WINDOW_STARTUP
  | "MAIN_MENU_LOAD" => some .MAIN_MENU_LOAD
  | "STORY_MODE_LOAD" => some .STORY_MODE_LOAD
  | "JOIN_ONLINE_SESSION" => some .JOIN_ONLINE_SESSION
  | "WAIT_TEAMMATE" => some .WAIT_TEAMMATE
  | "PLAYER_JOIN" => some .PLAYER_JOIN
  | "RESPAWN_IN_AGENCY" => some .RESPAWN_IN_AGENCY
  | "JOB_SETUP_PANEL_OPEN" => some .JOB_SETUP_PANEL_OPEN
  | "JOB_START" => some .JOB_START
  | "CHARACTER_LAND" => some .CHARACTER_LAND
  | _ => none

inductive GameState
  | ON
  | UNKNOWN
  | OFF
  | OFFLINE
  | MAIN_MENU
  | STORY_MODE
  | ONLINE_FREEMODE
  | DEAD_ONLINE
  | LOADING_SCREEN
  | IN_MISSION
  | SCOREBOARD
  | STORY_PAUSED
  | ONLINE_PAUSED
  | JOB_PANEL_1
  | JOB_PANEL_2
  | BAD_JOB_PANEL_STANDBY_PLAYER
  | WARNING
  | BAD_PCSETTING_BIN
deriving DecidableEq, Repr

def GameState.memberByName : String → Option GameState
  | "ON" => some .ON
  | "UNKNOWN" => some .UNKNOWN
  | "OFF" => some .OFF
  | "OFFLINE" => some .OFFLINE
  | "MAIN_MENU" => some .MAIN_MENU
  | "STORY_MODE" => some .STORY_MODE
  | "ONLINE_FREEMODE" => some .ONLINE_FREEMODE
  | "DEAD_ONLINE" => some .DEAD_ONLINE
  | "LOADING_SCREEN" => some .LOADING_SCREEN
  | "IN_MISSION" => some .IN_MISSION
  | "SCOREBOARD" => some .SCOREBOARD
  | "STORY_PAUSED" => some .STORY_PAUSED
  | "ONLINE_PAUSED" => some .ONLINE_PAUSED
  | "JOB_PANEL_1" => some .JOB_PANEL_1
  | "JOB_PANEL_2" => some .JOB_PANEL_2
  | "BAD_JOB_PANEL_STANDBY_PLAYER" => some .BAD_JOB_PANEL_STANDBY_PLAYER
  | "WARNING" => some .WARNING
  | "BAD_PCSETTING_BIN" => some .BAD_PCSETTING_BIN
  | _ => none

inductive UIElementNotFoundContext
  | STORY_MODE_MENU
  | ONLINE_MODE_TAB
  | JOB_SETUP_PANEL
  | JOB_TRIGGER_POINT
deriving DecidableEq, Repr

def UIElementNotFoundContext.memberByName : String → Option UIElementNotFoundContext
  | "STORY_MODE_MENU" => some .STORY_MODE_MENU
  | "ONLINE_MODE_TAB" => some .ONLINE_MODE_TAB
  | "JOB_SETUP_PANEL" => some .JOB_SETUP_PANEL
  | "JOB_TRIGGER_POINT" => some .JOB_TRIGGER_POINT
  | _ => none

/-- Model of `UnexpectedGameState.expected`: a single state or a Python set of
states (`GameState | set[GameState]` in the source). -/
inductive ExpectedStates
  | single (s : GameState)
  | states (ss : Finset GameState)
deriving DecidableEq

/-- The exception classes of `gta_automator/exception.py` that the
modelled code paths can construct (the remaining classes are not
reachable from the claims). -/
inductive GameExc
  | operationTimeout (context : OperationTimeoutContext)
  | unexpectedGameState (expected : ExpectedStates) (actual : GameState)
  | uiElementNotFound (context : UIElementNotFoundContext)
deriving DecidableEq

/-- Errors as observed by a caller: either one of the
exception values, or a raw Python error produced before the intended
exception could even be constructed. -/
inductive PyError
  | gameExc (e : GameExc)
  | attributeError (typeName memberName : String)
  | nameError (name : String)
deriving DecidableEq

def PyError.isUIElementNotFound : PyError → Bool
  | .gameExc (.uiElementNotFound _) => true
  | _ => false

/-! ## The screen classifier `gta_automator/game_screen.py`

All regular expressions the classifier uses are produced by
`GameScreenTextPatterns._compile_to_pattern`, i.e. they are alternations
of `re.escape`d literal keywords.  A compiled pattern is therefore
modelled by its keyword list; `re.search` on such a pattern succeeds iff
some keyword occurs literally in the text, except that the *empty*
alternation (pattern source `""`) matches every text.  `re.escape` is
elided: it never changes whether the pattern source is empty nor what
literal text a branch matches. -/

def reSearchAlternation (keywords : List String) (text : String) : Bool :=
  match keywords with
  | [] => true
  | _ => keywords.any (fun k => pyIsSubstr k text)

/-- The source string of the compiled alternation pattern (used only for
the `not query_text.pattern` truthiness test in `search_text`). -/
def patternSource (keywords : List String) : String :=
  String.intercalate "|" keywords

/-- Model of `GameScreenTextPatterns.IS_ON_JOB_PANEL_RIGHT_SCREEN` keyword set. -/
def IS_ON_JOB_PANEL_RIGHT_SCREEN : List String := ["浑球", "办事", "角色"]

/-- The `query_text` argument of `GameScreen.search_text`:
`Union[str, List[str], re.Pattern[str]]` (a compiled pattern is carried
as its keyword list, see above). -/
inductive TextQuery
  | str (s : String)
  | list (ks : List String)
  | pattern (ks : List String)

/-- The "empty query" truthiness tests at the top of `search_text`:
`not query_text` for strings and lists, `not query_text.pattern` for
compiled patterns. -/
def TextQuery.isEmptyQuery : TextQuery → Bool
  | .str s => s = ""
  | .list ks => ks.isEmpty
  | .pattern ks => patternSource ks = ""

/-- Model of `GameScreen._search_text_in_text(text, query_text)`.  For a list the
source joins the escaped elements into one alternation and calls
`re.search`; for a string it uses `in`. -/
def searchTextInText (text : String) (q : TextQuery) : Bool :=
  match q with
  | .pattern ks => reSearchAlternation ks text
  | .list ks => reSearchAlternation ks text
  | .str s => pyIsSubstr s text

/-- Python truthiness of `self.process.hwnd` (`Optional[int]`): falsy
when `None` or `0`. -/
def hwndTruthy : Option ℤ → Bool
  | none => false
  | some n => n ≠ 0

/-- Model of `GameScreen.ocr_game_window`.  `hwnd` is the window handle of the
tracked game process; `sensor` is the outcome of the injected
`ocr_func` call (`.error ()` models it raising `ValueError`).  The
region coordinates do not influence control flow and are omitted from
the state; they are threaded by the callers below. -/
def ocrGameWindow (hwnd : Option ℤ) (sensor : Except Unit String) :
    Except GameExc String :=
  if hwndTruthy hwnd = false then
    .error (.unexpectedGameState (.single .ON) .OFF)
  else
    match sensor with
    | .ok text => .ok text
    | .error () => .error (.unexpectedGameState (.single .ON) .OFF)

/-- Model of `GameScreen.search_text(query_text, ocr_text, left, top, width,
height)`.  The four region coordinates are only forwarded to the sensor
and do not affect the result of the modelled runs. -/
def searchText (hwnd : Option ℤ) (sensor : Except Unit String)
    (q : TextQuery) (ocrText : Option String)
    (_left _top _width _height : ℚ) : Except GameExc Bool :=
  if q.isEmptyQuery then
    .ok false
  else
    match ocrText with
    | some t => .ok (searchTextInText t q)
    | none => (ocrGameWindow hwnd sensor).map (fun t => searchTextInText t q)

/-- Result quadruple of `GameScreen.get_job_setup_status`:
`(is_on_panel, joining_count, joined_count, standby_count)`. -/
structure JobSetupStatus where
  isOnPanel : Bool
  joining : ℤ
  joined : ℤ
  standby : ℤ
deriving DecidableEq, Repr

/-- Pure part of `GameScreen.get_job_setup_status` once the OCR text is
in hand: classify the panel by the `IS_ON_JOB_PANEL_RIGHT_SCREEN`
pattern; on the panel, count the marker substrings; off the panel,
return the documented `(False, -1, -1, -1)` sentinel. -/
def getJobSetupStatus (ocrText : String) : JobSetupStatus :=
  if reSearchAlternation IS_ON_JOB_PANEL_RIGHT_SCREEN ocrText then
    { isOnPanel := true
      joining := (pyCount ocrText "正在" : ℤ) + (pyCount ocrText "离开" : ℤ)
      joined := (pyCount ocrText "已加" : ℤ)
      standby := (pyCount ocrText "待命" : ℤ) }
  else
    { isOnPanel := false, joining := -1, joined := -1, standby := -1 }

/-- Model of `GameScreen.get_job_setup_status(ocr_text)` including the
`ocr_text is None` branch that performs the OCR itself. -/
def getJobSetupStatusM (hwnd : Option ℤ) (sensor : Except Unit String)
    (ocrText : Option String) : Except GameExc JobSetupStatus :=
  match ocrText with
  | some t => .ok (getJobSetupStatus t)
  | none => (ocrGameWindow hwnd sensor).map getJobSetupStatus

/-! ## The lobby tracker `LobbyStateTracker` (`job_workflow.py`)

Mutable attributes of the tracker object.  Times come from
`time.monotonic()` and are modelled as `ℚ`; the player counts are the
`int`s returned by `get_job_setup_status` (which may be `-1`). -/

structure LobbyState where
  startWaitTime : ℚ
  inLobby : Bool
  teamStatusLastChangedTime : ℚ
  lastZeroJoiningPlayerTime : ℚ
  joiningCount : ℤ
  joinedCount : ℤ
  standbyCount : ℤ
deriving DecidableEq, Repr

/-- Model of `LobbyStateTracker.init()` at clock value `now`. -/
def LobbyStateTracker.init (now : ℚ) : LobbyState :=
  { startWaitTime := now
    inLobby := false
    teamStatusLastChangedTime := now
    lastZeroJoiningPlayerTime := now
    joiningCount := 0
    joinedCount := 0
    standbyCount := 0 }

/-- Model of `LobbyStateTracker.update`.  `snap` is the
`(is_on_panel, joining, joined, standby)` quadruple in effect after the
warning-page re-read (when a concrete `ocr_text` string is passed, as
in the claims, both `get_job_setup_status` calls return the same
quadruple for it). -/
def LobbyStateTracker.update (s : LobbyState) (currentTime : ℚ)
    (snap : JobSetupStatus) : LobbyState :=
  if snap.joining ≠ s.joiningCount ∨ snap.joined ≠ s.joinedCount ∨
      snap.standby ≠ s.standbyCount then
    { s with
      inLobby := snap.isOnPanel
      teamStatusLastChangedTime := currentTime
      joiningCount := snap.joining
      joinedCount := snap.joined
      standbyCount := snap.standby
      lastZeroJoiningPlayerTime :=
        if snap.joining = 0 then currentTime else s.lastZeroJoiningPlayerTime }
  else
    { s with inLobby := snap.isOnPanel }

/-- Iterated `update` with a fixed snapshot, one call per clock value in
`ts` (models the lobby loop reading the same screen repeatedly). -/
def LobbyStateTracker.updateMany (snap : JobSetupStatus) :
    LobbyState → List ℚ → LobbyState
  | s, [] => s
  | s, t :: ts => LobbyStateTracker.updateMany snap
      (LobbyStateTracker.update s t snap) ts

/-- Model of `LobbyStateTracker.is_lobby_full`. -/
def LobbyStateTracker.isLobbyFull (s : LobbyState) : Bool :=
  s.joinedCount + s.joiningCount + s.standbyCount ≥ 3

/-- Model of `LobbyStateTracker.has_standby_player`. -/
def LobbyStateTracker.hasStandbyPlayer (s : LobbyState) : Bool :=
  s.standbyCount > 0

/-- Model of `LobbyStateTracker.has_wait_timeout`; `waitTimeout` is the
configured `matchPanelTimeout`, `now` the current monotonic clock. -/
def LobbyStateTracker.hasWaitTimeout (waitTimeout : ℚ) (s : LobbyState)
    (now : ℚ) : Bool :=
  (s.joinedCount = 0 ∧ s.joiningCount = 0) ∧ now - s.startWaitTime > waitTimeout

/-- Model of `LobbyStateTracker.has_joining_timeout`; `joiningTimeout` is the
configured `playerJoiningTimeout`. -/
def LobbyStateTracker.hasJoiningTimeout (joiningTimeout : ℚ) (s : LobbyState)
    (now : ℚ) : Bool :=
  s.joiningCount > 0 ∧ now - s.lastZeroJoiningPlayerTime > joiningTimeout

/-- Model of `LobbyStateTracker.should_start_job`; `startImmediatelyWhenFull` and
`normalStartDelay` are the configured `startOnAllJoined` and
`startMatchDelay`. -/
def LobbyStateTracker.shouldStartJob (startImmediatelyWhenFull : Bool)
    (normalStartDelay : ℚ) (s : LobbyState) (now : ℚ) : Bool :=
  if s.standbyCount ≠ 0 then
    false
  else if s.joinedCount ≥ 3 ∧ startImmediatelyWhenFull = true then
    true
  else if (s.joinedCount > 0 ∧ s.joiningCount = 0) ∧
      now - s.teamStatusLastChangedTime > normalStartDelay then
    true
  else
    false

/-! ## One iteration of the `setup_wait_start_job` lobby loop

The loop body of `JobWorkflow.setup_wait_start_job` (after the
`update()` call), acting on the freshly updated tracker state.  Two
raise sites in this body reference names that do not exist: line 314
and the `_try_to_start_job` escape path (line 283) evaluate the global
name `UIElement`, which is defined nowhere in the package (a Python
`NameError`); line 350 accesses `OperationTimeoutContext.TEAMMATE`,
which is not a member of the enumeration (a Python `AttributeError`). -/

/-- Possible results of `JobWorkflow._try_to_start_job` as an oracle:
the job started, the start failed but the panel is still shown, or the
start failed and the panel is gone. -/
inductive TryStartResult
  | started
  | stillOnPanel
  | leftPanel
deriving DecidableEq, Repr

/-- Outcome of one lobby-loop iteration. -/
inductive LoopOutcome
  | raised (e : PyError)
  | jobStarted
  | continueWaiting (afterStartFailure : Bool)
deriving DecidableEq

/-- Model of `raise OperationTimeout(OperationTimeoutContext.TEAMMATE)` as
written at `job_workflow.py:350`: the member is looked up by name
before the exception object can be constructed. -/
def raiseOperationTimeoutByName (memberName : String) : PyError :=
  match OperationTimeoutContext.memberByName memberName with
  | some c => .gameExc (.operationTimeout c)
  | none => .attributeError "OperationTimeoutContext" memberName

/-- One iteration of the `while True` loop of
`JobWorkflow.setup_wait_start_job`, given the updated tracker state `s`
and the clock value `now` at which the tracker properties are read. -/
def setupWaitStartJobStep (startImmediatelyWhenFull : Bool)
    (normalStartDelay waitTimeout joiningTimeout : ℚ) (s : LobbyState)
    (now : ℚ) (tryStart : TryStartResult) : LoopOutcome :=
  if s.inLobby = false then
    .raised (.nameError "UIElement")
  else if LobbyStateTracker.hasStandbyPlayer s then
    .raised (.gameExc (.unexpectedGameState (.single .JOB_PANEL_2)
      .BAD_JOB_PANEL_STANDBY_PLAYER))
  else if LobbyStateTracker.shouldStartJob startImmediatelyWhenFull
      normalStartDelay s now then
    match tryStart with
    | .started => .jobStarted
    | .stillOnPanel => .continueWaiting true
    | .leftPanel => .raised (.nameError "UIElement")
  else if LobbyStateTracker.hasWaitTimeout waitTimeout s now then
    .raised (raiseOperationTimeoutByName "TEAMMATE")
  else if LobbyStateTracker.hasJoiningTimeout joiningTimeout s now then
    .raised (.gameExc (.operationTimeout .PLAYER_JOIN))
  else
    .continueWaiting false

/-! ## The session-switch recovery ladder

`OnlineWorkflow.start_new_match` (`online_workflow.py`) and the legacy
`Session.start_new_match` (`session.py`).  Both own the same ordered
list of recovery strategies. -/

inductive RecoveryStrategy
  | doNothing
  | bruteForceBack
  | backAndConfirm
  | glitchingSession
deriving DecidableEq, Repr

def recoveryStrategies : List RecoveryStrategy :=
  [.doNothing, .bruteForceBack, .backAndConfirm, .glitchingSession]

/-- Model of `OnlineWorkflow._try_to_switch_session` for attempt outcomes that
are decided inside `online_workflow.py`: `menuOpened` is the result of
the `is_on_go_online_menu()` check (the preceding `open_pause_menu()`
returning normally).  On a failed check the source executes
`raise UIElementNotFound(UIElementNotFoundContext.SWITCH_SESSION_TAB)`,
whose member lookup happens first. -/
def onlineTryToSwitchSession (menuOpened : Bool) : Except PyError Unit :=
  if menuOpened then
    .ok ()
  else
    match UIElementNotFoundContext.memberByName "SWITCH_SESSION_TAB" with
    | some c => .error (.gameExc (.uiElementNotFound c))
    | none => .error (.attributeError "UIElementNotFoundContext" "SWITCH_SESSION_TAB")

/-- The strategy-walking loop of `OnlineWorkflow.start_new_match`:
run a strategy, retry the switch, catch only `UIElementNotFound` and
fall through to the next strategy.  Returns the executed strategies and
the final result.  `menuOpenedAt k` is the `is_on_go_online_menu` check
of attempt number `k` (attempt 0 is the initial attempt). -/
def onlineStartNewMatchGo (menuOpenedAt : Nat → Bool) :
    Nat → List RecoveryStrategy → List RecoveryStrategy × Except PyError Unit
  | _, [] =>
    ([], .error (.gameExc (.unexpectedGameState
      (.states {GameState.ONLINE_FREEMODE, GameState.IN_MISSION}) .UNKNOWN)))
  | k, strat :: rest =>
    match onlineTryToSwitchSession (menuOpenedAt k) with
    | .ok () => ([strat], .ok ())
    | .error e =>
      if e.isUIElementNotFound then
        let (executed, result) := onlineStartNewMatchGo menuOpenedAt (k + 1) rest
        (strat :: executed, result)
      else
        ([strat], .error e)

/-- Model of `OnlineWorkflow.start_new_match`: initial attempt, then the ladder.
Any exception other than `UIElementNotFound` propagates. -/
def onlineStartNewMatch (menuOpenedAt : Nat → Bool) :
    List RecoveryStrategy × Except PyError Unit :=
  match onlineTryToSwitchSession (menuOpenedAt 0) with
  | .ok () => ([], .ok ())
  | .error e =>
    if e.isUIElementNotFound then
      onlineStartNewMatchGo menuOpenedAt 1 recoveryStrategies
    else
      ([], .error e)

/-- Model of `Session._try_to_switch_session` (`session.py`) returns a `bool`
(`False` on a failed menu navigation) instead of raising;
`attemptSucceeds k` is the result of attempt number `k`. -/
def sessionStartNewMatchGo (attemptSucceeds : Nat → Bool) :
    Nat → List RecoveryStrategy → List RecoveryStrategy × Except PyError Unit
  | _, [] =>
    -- `raise UnexpectedGameState({GameState.IN_ONLINE_LOBBY, GameState.IN_MISSION},
    --  GameState.UNKNOWN)` at `session.py:117`: the first member lookup
    -- runs before the set literal is built.
    ([], .error (match GameState.memberByName "IN_ONLINE_LOBBY" with
      | some st => .gameExc (.unexpectedGameState
          (.states {st, GameState.IN_MISSION}) .UNKNOWN)
      | none => .attributeError "GameState" "IN_ONLINE_LOBBY"))
  | k, strat :: rest =>
    if attemptSucceeds k then
      ([strat], .ok ())
    else
      let (executed, result) := sessionStartNewMatchGo attemptSucceeds (k + 1) rest
      (strat :: executed, result)

/-- Model of `Session.start_new_match` (`session.py`). -/
def sessionStartNewMatch (attemptSucceeds : Nat → Bool) :
    List RecoveryStrategy × Except PyError Unit :=
  if attemptSucceeds 0 then
    ([], .ok ())
  else
    sessionStartNewMatchGo attemptSucceeds 1 recoveryStrategies

/-! ## The health monitor (`health_check.py`)

`HealthMonitor._perform_check` as a transition function.  The mutable
state is the single flag `_is_healthy_on_last_check` (initially `True`).
Inputs of a tick: whether the suppression predicate fired and the
elapsed time (seconds) since the last successful Steam send.  Outputs:
the notifications pushed via `__send_notification` and calls of the
injected `exit_func`.  `enable_steam_chat_timeout` is hard-wired to
`True` in the constructor but kept as a parameter; the threshold is in
minutes, compared against `elapsed > threshold * 60`. -/

inductive HealthEvent
  | becameUnhealthyNotice (reason : Option String)
  | recoveredNotice
  | exitCall
deriving DecidableEq, Repr

/-- Model of `HealthMonitor._perform_check`: returns the new
`_is_healthy_on_last_check` flag and the emitted events, in order.
`_on_become_unhealthy` sends the one notification (with the diagnostic
reason) and then calls `exit_func` when `enable_exit_on_unhealthy`;
`_on_become_healthy` sends the recovery notification; `_on_unhealthy`
(called without a reason at line 137) only calls `exit_func` when
enabled; `_on_healthy` does nothing. -/
def healthPerformCheck (enableTimeout : Bool) (thresholdMin : ℚ)
    (enableExit : Bool) (suppress : Bool) (elapsed : ℚ) (s : Bool) :
    Bool × List HealthEvent :=
  if suppress then
    (s, [])
  else
    let timedOut : Bool := enableTimeout = true ∧ elapsed > thresholdMin * 60
    let isHealthyNow : Bool := !timedOut
    let reason : Option String := if timedOut then some "SteamChatTimeout" else none
    let events : List HealthEvent :=
      if s && !isHealthyNow then
        .becameUnhealthyNotice reason :: (if enableExit then [.exitCall] else [])
      else if !s && isHealthyNow then
        [.recoveredNotice]
      else if !isHealthyNow then
        (if enableExit then [.exitCall] else [])
      else
        []
    (isHealthyNow, events)

/-- Run of the monitor over a list of ticks
`(suppress, elapsed)`, threading `_is_healthy_on_last_check` and
collecting the events of each tick. -/
def healthRun (enableTimeout : Bool) (thresholdMin : ℚ) (enableExit : Bool) :
    Bool → List (Bool × ℚ) → Bool × List (List HealthEvent)
  | s, [] => (s, [])
  | s, (sup, e) :: rest =>
    let step := healthPerformCheck enableTimeout thresholdMin enableExit sup e s
    let tail := healthRun enableTimeout thresholdMin enableExit step.1 rest
    (tail.1, step.2 :: tail.2)

/-- Model of `_is_healthy_on_last_check` before tick `n` of an all-ticks-checked
run (no suppression) whose tick `k` observes elapsed time `elapsed k`;
the constructor initialises the flag to `True`. -/
def healthStateBefore (thresholdMin : ℚ) (enableExit : Bool)
    (elapsed : Nat → ℚ) : Nat → Bool
  | 0 => true
  | n + 1 =>
    (healthPerformCheck true thresholdMin enableExit false (elapsed n)
      (healthStateBefore thresholdMin enableExit elapsed n)).1

/-- Events emitted by tick `n` of the same run. -/
def healthEventsAt (thresholdMin : ℚ) (enableExit : Bool)
    (elapsed : Nat → ℚ) (n : Nat) : List HealthEvent :=
  (healthPerformCheck true thresholdMin enableExit false (elapsed n)
    (healthStateBefore thresholdMin enableExit elapsed n)).2

/-! ## The backend supervisor (`steambot_utils.py`)

`Supervisor.run` as a step function plus a fuel-indexed loop.  The
mutable state visible to the claims: `is_first_check`, whether the
one-shot `initial_health_event` has been signalled, and (to express
"keeps retrying") the number of `process_manager.restart()` calls made
so far.  Per-iteration inputs: `process_manager.is_running()`, the
probe result `api_client.is_healthy()`, and the probe results of the
`_wait_for_health(timeout=30)` polling loop. -/

structure SupervisorState where
  isFirstCheck : Bool
  initialHealthSet : Bool
  restarts : Nat
deriving DecidableEq, Repr

def supervisorInitState : SupervisorState :=
  { isFirstCheck := true, initialHealthSet := false, restarts := 0 }

/-- Model of `is_service_healthy = self.api_client.is_healthy() if
is_process_running else False`. -/
def serviceHealthy (processRunning probeNow : Bool) : Bool :=
  if processRunning then probeNow else false

/-- Model of `Supervisor._wait_for_health`: polls the probe until a success or
the time budget runs out; `polls` are the probe answers the budget
allows.  Returns whether any poll succeeded. -/
def waitForHealth (polls : List Bool) : Bool :=
  polls.any id

/-- One iteration of the `while` body of `Supervisor.run` (without the
terminal `stop_event.wait`): if the service is healthy, nothing
changes; otherwise clear `is_first_check`, restart the backend, and
signal the one-shot event if the post-restart health wait succeeds. -/
def supervisorStep (s : SupervisorState) (processRunning probeNow : Bool)
    (healthPolls : List Bool) : SupervisorState :=
  if serviceHealthy processRunning probeNow then
    s
  else
    { isFirstCheck := false
      initialHealthSet := s.initialHealthSet || waitForHealth healthPolls
      restarts := s.restarts + 1 }

/-- Model of `Supervisor.run` with `fuel` remaining loop iterations, starting at
iteration index `i`: the loop exits when `stop_event` is observed set
at the top of an iteration (first component `true`); running out of
fuel leaves the loop still running (first component `false`). -/
def supervisorRun (stopFlag processRunningAt probeAt : Nat → Bool)
    (pollsAt : Nat → List Bool) : Nat → Nat → SupervisorState →
    Bool × SupervisorState
  | _, 0, s => (false, s)
  | i, fuel + 1, s =>
    if stopFlag i then
      (true, s)
    else
      supervisorRun stopFlag processRunningAt probeAt pollsAt (i + 1) fuel
        (supervisorStep s (processRunningAt i) (probeAt i) (pollsAt i))

/-- The one-shot wait in `SteamBot.__init__`,
`self.supervisor.initial_health_event.wait(timeout=30)`: it returns
whether the event has been signalled by the time the 30-second budget
expires, i.e. the `initialHealthSet` component of the supervisor state
at that moment. -/
def waitUntilFirstHealthy (s : SupervisorState) : Bool :=
  s.initialHealthSet

/-! ## Helper lemmas -/

/-- The empty string occurs in every string (`"" in text` is `True` in
Python). -/
theorem pyIsSubstr_empty (text : String) : pyIsSubstr "" text = true := by
  show pyIsSubstrAux [] text.data = true
  induction text.data with
  | nil => rfl
  | cons c rest ih => simp [pyIsSubstrAux]

/-- After an `update`, the stored counts are exactly the counts of the
snapshot (either they were just assigned, or they were already equal). -/
theorem LobbyStateTracker.update_counts (s : LobbyState) (t : ℚ)
    (snap : JobSetupStatus) :
    (LobbyStateTracker.update s t snap).joiningCount = snap.joining ∧
    (LobbyStateTracker.update s t snap).joinedCount = snap.joined ∧
    (LobbyStateTracker.update s t snap).standbyCount = snap.standby := by
  unfold LobbyStateTracker.update
  split
  · exact ⟨rfl, rfl, rfl⟩
  · next hne =>
    push_neg at hne
    exact ⟨hne.1.symm, hne.2.1.symm, hne.2.2.symm⟩

/-- An `update` whose snapshot counts coincide with the stored counts
only refreshes `in_lobby`. -/
theorem LobbyStateTracker.update_eq_of_counts_eq (s : LobbyState) (t : ℚ)
    (snap : JobSetupStatus) (h1 : snap.joining = s.joiningCount)
    (h2 : snap.joined = s.joinedCount) (h3 : snap.standby = s.standbyCount) :
    LobbyStateTracker.update s t snap = { s with inLobby := snap.isOnPanel } := by
  unfold LobbyStateTracker.update
  rw [if_neg (by push_neg; exact ⟨h1, h2, h3⟩)]

/-- Repeated updates with a snapshot whose counts are already stored
never move the timers. -/
theorem LobbyStateTracker.updateMany_timers (snap : JobSetupStatus) :
    ∀ (ts : List ℚ) (s : LobbyState), s.joiningCount = snap.joining →
      s.joinedCount = snap.joined → s.standbyCount = snap.standby →
      (LobbyStateTracker.updateMany snap s ts).teamStatusLastChangedTime =
          s.teamStatusLastChangedTime ∧
      (LobbyStateTracker.updateMany snap s ts).lastZeroJoiningPlayerTime =
          s.lastZeroJoiningPlayerTime := by
  intro ts
  induction ts with
  | nil => exact fun s _ _ _ => ⟨rfl, rfl⟩
  | cons t ts ih =>
    intro s h1 h2 h3
    have hupd := LobbyStateTracker.update_eq_of_counts_eq s t snap h1.symm h2.symm h3.symm
    have := ih (LobbyStateTracker.update s t snap)
      (by rw [hupd]; exact h1) (by rw [hupd]; exact h2) (by rw [hupd]; exact h3)
    rw [LobbyStateTracker.updateMany, this.1, this.2, hupd]
    exact ⟨rfl, rfl⟩

/-- A non-suppressed health tick, case-split on whether the elapsed
time exceeded the threshold (with the steam-chat check enabled, as the
constructor hard-wires). -/
theorem healthPerformCheck_checked (thr : ℚ) (ex : Bool) (e : ℚ) (s : Bool) :
    healthPerformCheck true thr ex false e s =
      if e > thr * 60 then
        (false,
          if s then
            .becameUnhealthyNotice (some "SteamChatTimeout") ::
              (if ex then [.exitCall] else [])
          else
            (if ex then [.exitCall] else []))
      else
        (true, if s then [] else [.recoveredNotice]) := by
  unfold healthPerformCheck
  by_cases h : e > thr * 60 <;> cases s <;> simp [h]

/-- The remembered flag before tick `n + 1` is the health of tick `n`. -/
theorem healthStateBefore_succ (thr : ℚ) (ex : Bool) (elapsed : Nat → ℚ)
    (n : Nat) :
    healthStateBefore thr ex elapsed (n + 1) =
      !(decide (elapsed n > thr * 60)) := by
  show (healthPerformCheck true thr ex false (elapsed n)
    (healthStateBefore thr ex elapsed n)).1 = _
  rw [healthPerformCheck_checked]
  by_cases h : elapsed n > thr * 60 <;> simp [h]

/-! ## Claim theorems -/

/-- C1 (code bug): in the lobby-phase loop, a tracker state that has
been all-zero (`joining = joined = standby = 0`) since the wait began,
observed past `matchPanelTimeout` (here 60 s, read at 61 s), takes the
wait-timeout branch — but instead of the claimed
`OperationTimeout(WAIT_TEAMMATE)` the branch evaluates
`OperationTimeoutContext.TEAMMATE`, a name that is not a member of the
enumeration, so a Python `AttributeError` propagates.  `WAIT_TEAMMATE`
is the member the docstring documents. -/
theorem C1_wait_timeout_raises_attribute_error :
    LobbyStateTracker.hasWaitTimeout 60
        { startWaitTime := 0, inLobby := true, teamStatusLastChangedTime := 0,
          lastZeroJoiningPlayerTime := 0, joiningCount := 0, joinedCount := 0,
          standbyCount := 0 } 61 = true ∧
    setupWaitStartJobStep false 5 60 120
        { startWaitTime := 0, inLobby := true, teamStatusLastChangedTime := 0,
          lastZeroJoiningPlayerTime := 0, joiningCount := 0, joinedCount := 0,
          standbyCount := 0 } 61 .started
      = .raised (.attributeError "OperationTimeoutContext" "TEAMMATE") ∧
    OperationTimeoutContext.memberByName "TEAMMATE" = none ∧
    OperationTimeoutContext.memberByName "WAIT_TEAMMATE" = some .WAIT_TEAMMATE := by
  have hwt : LobbyStateTracker.hasWaitTimeout 60
      { startWaitTime := 0, inLobby := true, teamStatusLastChangedTime := 0,
        lastZeroJoiningPlayerTime := 0, joiningCount := 0, joinedCount := 0,
        standbyCount := 0 } 61 = true := by
    simp only [LobbyStateTracker.hasWaitTimeout, decide_eq_true_eq]
    norm_num
  refine ⟨hwt, ?_, rfl, rfl⟩
  unfold setupWaitStartJobStep
  rw [if_neg (by decide), if_neg (by decide), if_neg (by decide), if_pos hwt]
  rfl

/-- C2 (code bug): in `OnlineWorkflow.start_new_match`, when the
switch-session menu never opens, the raise executed by the failed attempt,
`raise UIElementNotFound(UIElementNotFoundContext.SWITCH_SESSION_TAB)`
itself fails with `AttributeError` (the member does not exist), which
the `except UIElementNotFound` clauses do not catch: no recovery rung
runs and no `UnexpectedGameState` is raised.  The legacy
`Session.start_new_match` does walk all four rungs in order, but its
exhaustion raise evaluates `GameState.IN_ONLINE_LOBBY`, also a
non-member, so it too ends in `AttributeError` instead of the claimed
`UnexpectedGameState({ONLINE_FREEMODE, IN_MISSION}, UNKNOWN)`. -/
theorem C2_recovery_ladder_attribute_errors :
    onlineStartNewMatch (fun _ => false)
      = ([], .error (.attributeError "UIElementNotFoundContext" "SWITCH_SESSION_TAB")) ∧
    UIElementNotFoundContext.memberByName "SWITCH_SESSION_TAB" = none ∧
    sessionStartNewMatch (fun _ => false)
      = ([.doNothing, .bruteForceBack, .backAndConfirm, .glitchingSession],
          .error (.attributeError "GameState" "IN_ONLINE_LOBBY")) ∧
    GameState.memberByName "IN_ONLINE_LOBBY" = none := by
  refine ⟨rfl, rfl, rfl, rfl⟩

/-- C3 counterexample: a tracker state with a standby player
(`standby = 1`) but `joined = 3` and `startImmediatelyWhenFull = true`
satisfies the start condition of the claim, yet `should_start_job` is false:
the `standby != 0` guard runs first. -/
theorem C3_counterexample :
    ((3 : ℤ) ≥ 3 ∧ true = true) ∧
    LobbyStateTracker.shouldStartJob true 5
        { startWaitTime := 0, inLobby := true, teamStatusLastChangedTime := 0,
          lastZeroJoiningPlayerTime := 0, joiningCount := 0, joinedCount := 3,
          standbyCount := 1 } 1000000 = false := by
  refine ⟨by decide, by decide⟩

/-- C3 (amended): for every tracker state **with `standby = 0`**,
`should_start_job` returns true if (`joined ≥ 3` and
`startImmediatelyWhenFull`) or (`joined > 0`, `joining = 0` and the
time since the last team change exceeds `normalStartDelay`); in
particular, with `standby = 0`, `joined = 3` and
`startImmediatelyWhenFull = true` it returns true regardless of
elapsed time. -/
theorem C3_should_start_job_amended (full : Bool) (delay : ℚ)
    (s : LobbyState) (now : ℚ) (hsb : s.standbyCount = 0) :
    ((s.joinedCount ≥ 3 ∧ full = true) ∨
        (s.joinedCount > 0 ∧ s.joiningCount = 0 ∧
          now - s.teamStatusLastChangedTime > delay) →
      LobbyStateTracker.shouldStartJob full delay s now = true) ∧
    (s.joinedCount = 3 ∧ full = true →
      LobbyStateTracker.shouldStartJob full delay s now = true) := by
  have main : (s.joinedCount ≥ 3 ∧ full = true) ∨
      (s.joinedCount > 0 ∧ s.joiningCount = 0 ∧
        now - s.teamStatusLastChangedTime > delay) →
      LobbyStateTracker.shouldStartJob full delay s now = true := by
    intro h
    unfold LobbyStateTracker.shouldStartJob
    rw [if_neg (by simp [hsb])]
    rcases h with h | h
    · rw [if_pos h]
    · by_cases h2 : s.joinedCount ≥ 3 ∧ full = true
      · rw [if_pos h2]
      · rw [if_neg h2, if_pos ⟨⟨h.1, h.2.1⟩, h.2.2⟩]
  exact ⟨main, fun h => main (Or.inl ⟨le_of_eq h.1.symm, h.2⟩)⟩

/-- C3 witness: the amended statement applied to a concrete full lobby
with no standby player and no elapsed time. -/
theorem C3_should_start_job_witness :
    LobbyStateTracker.shouldStartJob true 5
        { startWaitTime := 0, inLobby := true, teamStatusLastChangedTime := 0,
          lastZeroJoiningPlayerTime := 0, joiningCount := 0, joinedCount := 3,
          standbyCount := 0 } 0 = true :=
  (C3_should_start_job_amended true 5
      { startWaitTime := 0, inLobby := true, teamStatusLastChangedTime := 0,
        lastZeroJoiningPlayerTime := 0, joiningCount := 0, joinedCount := 3,
        standbyCount := 0 } 0 rfl).2 ⟨rfl, rfl⟩

/-- C4 counterexample: on OCR text without the lobby-panel keywords the
composite query returns the documented sentinel
`(False, -1, -1, -1)` — the counts are negative, and an `update` with
this snapshot records `-1` in the tracker. -/
theorem C4_counterexample :
    getJobSetupStatus "x" =
      { isOnPanel := false, joining := -1, joined := -1, standby := -1 } ∧
    ¬ (0 ≤ (getJobSetupStatus "x").joining) ∧
    (LobbyStateTracker.update (LobbyStateTracker.init 0) 1
        (getJobSetupStatus "x")).joiningCount = -1 := by
  refine ⟨by decide, by decide, by decide⟩

/-- C4 (amended): whenever the composite lobby query recognises the
panel (`inLobby = true`), the three counts are non-negative; and the
the `update` of the tracker always records exactly the counts of the snapshot. -/
theorem C4_snapshot_model_amended (text : String) (s : LobbyState) (t : ℚ)
    (hp : (getJobSetupStatus text).isOnPanel = true) :
    (0 ≤ (getJobSetupStatus text).joining ∧
      0 ≤ (getJobSetupStatus text).joined ∧
      0 ≤ (getJobSetupStatus text).standby) ∧
    ((LobbyStateTracker.update s t (getJobSetupStatus text)).joiningCount =
        (getJobSetupStatus text).joining ∧
      (LobbyStateTracker.update s t (getJobSetupStatus text)).joinedCount =
        (getJobSetupStatus text).joined ∧
      (LobbyStateTracker.update s t (getJobSetupStatus text)).standbyCount =
        (getJobSetupStatus text).standby) := by
  refine ⟨?_, LobbyStateTracker.update_counts s t (getJobSetupStatus text)⟩
  unfold getJobSetupStatus at hp ⊢
  by_cases h : reSearchAlternation IS_ON_JOB_PANEL_RIGHT_SCREEN text = true
  · rw [if_pos h]
    refine ⟨?_, ?_, ?_⟩ <;> positivity
  · rw [if_neg h] at hp
    exact absurd hp (by decide)

/-- C4 witness: the amended statement applied to a concrete panel text
with one joining and two joined players. -/
theorem C4_snapshot_model_witness :
    0 ≤ (getJobSetupStatus "浑球x正在y已加z已加").joining ∧
    (LobbyStateTracker.update (LobbyStateTracker.init 0) 1
        (getJobSetupStatus "浑球x正在y已加z已加")).joinedCount =
      (getJobSetupStatus "浑球x正在y已加z已加").joined :=
  ⟨(C4_snapshot_model_amended "浑球x正在y已加z已加"
      (LobbyStateTracker.init 0) 1 (by decide)).1.1,
    (C4_snapshot_model_amended "浑球x正在y已加z已加"
      (LobbyStateTracker.init 0) 1 (by decide)).2.2.1⟩

/-- C5: an `update` whose snapshot counts all equal the stored counts
leaves both timers untouched — and therefore any further updates with
the same snapshot never move the timers either; if any count differs,
`team_status_last_changed_time` is set to the current clock, and
`last_zero_joining_player_time` is set to the current clock exactly
when the new `joining` count is zero. -/
theorem C5_update_timer_idempotence (s : LobbyState) (t : ℚ)
    (snap : JobSetupStatus) :
    (snap.joining = s.joiningCount ∧ snap.joined = s.joinedCount ∧
        snap.standby = s.standbyCount →
      (LobbyStateTracker.update s t snap).teamStatusLastChangedTime =
          s.teamStatusLastChangedTime ∧
      (LobbyStateTracker.update s t snap).lastZeroJoiningPlayerTime =
          s.lastZeroJoiningPlayerTime) ∧
    (¬ (snap.joining = s.joiningCount ∧ snap.joined = s.joinedCount ∧
        snap.standby = s.standbyCount) →
      (LobbyStateTracker.update s t snap).teamStatusLastChangedTime = t ∧
      (snap.joining = 0 →
        (LobbyStateTracker.update s t snap).lastZeroJoiningPlayerTime = t) ∧
      (snap.joining ≠ 0 →
        (LobbyStateTracker.update s t snap).lastZeroJoiningPlayerTime =
          s.lastZeroJoiningPlayerTime)) ∧
    (∀ ts : List ℚ,
      (LobbyStateTracker.updateMany snap (LobbyStateTracker.update s t snap)
          ts).teamStatusLastChangedTime =
        (LobbyStateTracker.update s t snap).teamStatusLastChangedTime ∧
      (LobbyStateTracker.updateMany snap (LobbyStateTracker.update s t snap)
          ts).lastZeroJoiningPlayerTime =
        (LobbyStateTracker.update s t snap).lastZeroJoiningPlayerTime) := by
  refine ⟨?_, ?_, ?_⟩
  · intro ⟨h1, h2, h3⟩
    rw [LobbyStateTracker.update_eq_of_counts_eq s t snap h1 h2 h3]
    exact ⟨rfl, rfl⟩
  · intro hne
    unfold LobbyStateTracker.update
    rw [if_pos (by tauto)]
    refine ⟨rfl, fun h0 => ?_, fun h0 => ?_⟩
    · show (if snap.joining = 0 then t else s.lastZeroJoiningPlayerTime) = t
      rw [if_pos h0]
    · show (if snap.joining = 0 then t else s.lastZeroJoiningPlayerTime) =
        s.lastZeroJoiningPlayerTime
      rw [if_neg h0]
  · intro ts
    have hc := LobbyStateTracker.update_counts s t snap
    exact LobbyStateTracker.updateMany_timers snap ts
      (LobbyStateTracker.update s t snap) hc.1 hc.2.1 hc.2.2

/-- C5 witness: concrete instances — an identical snapshot (even after
two more reads) keeps both timers at 5, a changed snapshot with
`joining = 1` moves the change timer to 9 while keeping the
zero-joining timer at 5. -/
theorem C5_update_timer_witness :
    (LobbyStateTracker.update (LobbyStateTracker.init 5) 9
        { isOnPanel := true, joining := 0, joined := 0, standby := 0 }
      ).teamStatusLastChangedTime = 5 ∧
    (LobbyStateTracker.updateMany
        { isOnPanel := true, joining := 0, joined := 0, standby := 0 }
        (LobbyStateTracker.update (LobbyStateTracker.init 5) 9
          { isOnPanel := true, joining := 0, joined := 0, standby := 0 })
        [10, 11]).teamStatusLastChangedTime = 5 ∧
    (LobbyStateTracker.update (LobbyStateTracker.init 5) 9
        { isOnPanel := true, joining := 1, joined := 0, standby := 0 }
      ).teamStatusLastChangedTime = 9 ∧
    (LobbyStateTracker.update (LobbyStateTracker.init 5) 9
        { isOnPanel := true, joining := 1, joined := 0, standby := 0 }
      ).lastZeroJoiningPlayerTime = 5 := by
  have hsame := C5_update_timer_idempotence (LobbyStateTracker.init 5) 9
    { isOnPanel := true, joining := 0, joined := 0, standby := 0 }
  have hdiff := C5_update_timer_idempotence (LobbyStateTracker.init 5) 9
    { isOnPanel := true, joining := 1, joined := 0, standby := 0 }
  refine ⟨?_, ?_, ?_, ?_⟩
  · exact (hsame.1 (by decide)).1
  · rw [(hsame.2.2 [10, 11]).1, (hsame.1 (by decide)).1]; rfl
  · exact (hdiff.2.1 (by decide)).1
  · rw [(hdiff.2.1 (by decide)).2.2 (by decide)]; rfl

/-- C6: over any run of non-suppressed health-check ticks (tick `n`
observes elapsed time `elapsed n`, the monitor starts healthy), the
"became unhealthy" notification is emitted at tick `n` exactly when the
tick is unhealthy and is the start of a maximal unhealthy stretch
(tick 0, or the previous tick was healthy), and the recovery
notification exactly on the unhealthy-to-healthy edge; in particular a
tick that is unhealthy but not the first of its stretch emits no
"became unhealthy" notification. -/
theorem C6_health_edge_notifications (thr : ℚ) (enableExit : Bool)
    (elapsed : Nat → ℚ) (n : Nat) :
    ((∃ r, HealthEvent.becameUnhealthyNotice r ∈
        healthEventsAt thr enableExit elapsed n) ↔
      (elapsed n > thr * 60 ∧ (n = 0 ∨ ¬ elapsed (n - 1) > thr * 60))) ∧
    (HealthEvent.recoveredNotice ∈ healthEventsAt thr enableExit elapsed n ↔
      (¬ elapsed n > thr * 60 ∧ 0 < n ∧ elapsed (n - 1) > thr * 60)) := by
  cases n with
  | zero =>
    unfold healthEventsAt
    rw [healthPerformCheck_checked]
    by_cases h0 : elapsed 0 > thr * 60 <;>
      cases enableExit <;>
        simp [h0, healthStateBefore]
  | succ n =>
    unfold healthEventsAt
    rw [healthStateBefore_succ, healthPerformCheck_checked]
    by_cases h1 : elapsed n > thr * 60 <;>
      by_cases h2 : elapsed (n + 1) > thr * 60 <;>
        cases enableExit <;>
          simp [h1, h2]

/-- C10: a suppressed tick is a complete no-op — the remembered flag is
returned unchanged and no notification or exit call is emitted — and
consequently, after any stretch of suppressed ticks, the first
non-suppressed tick behaves exactly as a single tick run from the
pre-stretch state (so an edge that happened during the stretch fires
its notification there and only there). -/
theorem C10_suppressed_tick_frame (enableTimeout : Bool) (thr : ℚ)
    (enableExit : Bool) :
    (∀ (s : Bool) (e : ℚ),
      healthPerformCheck enableTimeout thr enableExit true e s = (s, [])) ∧
    (∀ (s : Bool) (n : Nat) (d e : ℚ),
      healthRun enableTimeout thr enableExit s
          (List.replicate n (true, d) ++ [(false, e)]) =
        ((healthPerformCheck enableTimeout thr enableExit false e s).1,
          List.replicate n ([] : List HealthEvent) ++
            [(healthPerformCheck enableTimeout thr enableExit false e s).2])) := by
  have hsup : ∀ (s : Bool) (e : ℚ),
      healthPerformCheck enableTimeout thr enableExit true e s = (s, []) := by
    intro s e
    unfold healthPerformCheck
    rw [if_pos rfl]
  refine ⟨hsup, ?_⟩
  intro s n d e
  induction n with
  | zero => simp [healthRun]
  | succ n ih =>
    rw [List.replicate_succ, List.cons_append, healthRun, hsup, ih,
      List.replicate_succ, List.cons_append]

/-- Invariants of the supervisor loop when the backend probe never
reports healthy: the one-shot event keeps the value it started with,
the loop exits exactly when the stop flag is observed, and (absent a
stop) every iteration performs one more restart. -/
theorem supervisorRun_never_healthy (stopFlag processRunningAt probeAt : Nat → Bool)
    (pollsAt : Nat → List Bool) (hprobe : ∀ i, probeAt i = false)
    (hpolls : ∀ i, ∀ b ∈ pollsAt i, b = false) :
    ∀ (fuel i : Nat) (s : SupervisorState),
      ((supervisorRun stopFlag processRunningAt probeAt pollsAt i fuel
          s).2.initialHealthSet = s.initialHealthSet) ∧
      ((supervisorRun stopFlag processRunningAt probeAt pollsAt i fuel
          s).1 = true ↔ ∃ k, k < fuel ∧ stopFlag (i + k) = true) ∧
      ((∀ k, k < fuel → stopFlag (i + k) = false) →
        (supervisorRun stopFlag processRunningAt probeAt pollsAt i fuel
          s).2.restarts = s.restarts + fuel) := by
  intro fuel
  induction fuel with
  | zero =>
    intro i s
    refine ⟨rfl, by simp [supervisorRun], fun _ => rfl⟩
  | succ fuel ih =>
    intro i s
    by_cases hstop : stopFlag i = true
    · rw [supervisorRun, if_pos hstop]
      refine ⟨rfl, ?_, ?_⟩
      · exact ⟨fun _ => ⟨0, Nat.succ_pos _, hstop⟩, fun _ => rfl⟩
      · intro h
        exact absurd (h 0 (Nat.succ_pos _)) (by simp [hstop])
    · have hstep : supervisorStep s (processRunningAt i) (probeAt i)
          (pollsAt i) =
          { isFirstCheck := false, initialHealthSet := s.initialHealthSet,
            restarts := s.restarts + 1 } := by
        have hany : (pollsAt i).any id = false := by
          rw [List.any_eq_false]
          intro b hb
          simp [hpolls i b hb]
        unfold supervisorStep serviceHealthy waitForHealth
        rw [hprobe i, if_neg (by cases processRunningAt i <;> simp), hany]
        simp
      rw [supervisorRun, if_neg hstop, hstep]
      obtain ⟨ih1, ih2, ih3⟩ := ih (i + 1)
        { isFirstCheck := false, initialHealthSet := s.initialHealthSet,
          restarts := s.restarts + 1 }
      refine ⟨ih1, ?_, ?_⟩
      · rw [ih2]
        constructor
        · rintro ⟨k, hk, hs⟩
          exact ⟨k + 1, by omega, by rwa [show i + (k + 1) = i + 1 + k by omega]⟩
        · rintro ⟨k, hk, hs⟩
          cases k with
          | zero => exact absurd hs hstop
          | succ k =>
            exact ⟨k, by omega, by rwa [show i + 1 + k = i + (k + 1) by omega]⟩
      · intro h
        rw [ih3 (fun k hk => by
          have := h (k + 1) (by omega)
          rwa [show i + (k + 1) = i + 1 + k by omega] at this)]
        show s.restarts + 1 + fuel = s.restarts + (fuel + 1)
        omega

/-- C7: when the backend health probe never reports healthy (neither at
the top-of-loop check nor during any post-restart poll), then after any
number of supervisor iterations the one-shot "initially ready" event is
still unset — so the 30-second `initial_health_event.wait` in
`SteamBot.__init__` returns false — and the loop has exited exactly when
the stop flag was observed set; when the stop flag is never set it is
still running and has performed one restart-and-poll cycle per
iteration. -/
theorem C7_supervisor_never_healthy (stopFlag processRunningAt probeAt : Nat → Bool)
    (pollsAt : Nat → List Bool) (hprobe : ∀ i, probeAt i = false)
    (hpolls : ∀ i, ∀ b ∈ pollsAt i, b = false) (fuel : Nat) :
    waitUntilFirstHealthy
        (supervisorRun stopFlag processRunningAt probeAt pollsAt 0 fuel
          supervisorInitState).2 = false ∧
    ((supervisorRun stopFlag processRunningAt probeAt pollsAt 0 fuel
        supervisorInitState).1 = true ↔ ∃ k, k < fuel ∧ stopFlag k = true) ∧
    ((∀ k, k < fuel → stopFlag k = false) →
      (supervisorRun stopFlag processRunningAt probeAt pollsAt 0 fuel
        supervisorInitState).2.restarts = fuel) := by
  obtain ⟨h1, h2, h3⟩ := supervisorRun_never_healthy stopFlag processRunningAt
    probeAt pollsAt hprobe hpolls fuel 0 supervisorInitState
  refine ⟨h1, ?_, ?_⟩
  · rw [h2]
    simp only [Nat.zero_add]
  · intro h
    rw [h3 (fun k hk => by simpa using h k hk)]
    show 0 + fuel = fuel
    omega

/-- C7 witness: a probe that never succeeds, a stop flag that is never
set, three iterations. -/
theorem C7_supervisor_witness :
    waitUntilFirstHealthy
        (supervisorRun (fun _ => false) (fun _ => true) (fun _ => false)
          (fun _ => [false, false]) 0 3 supervisorInitState).2 = false ∧
    (supervisorRun (fun _ => false) (fun _ => true) (fun _ => false)
        (fun _ => [false, false]) 0 3 supervisorInitState).1 = false ∧
    (supervisorRun (fun _ => false) (fun _ => true) (fun _ => false)
        (fun _ => [false, false]) 0 3 supervisorInitState).2.restarts = 3 := by
  obtain ⟨h1, h2, h3⟩ := C7_supervisor_never_healthy (fun _ => false)
    (fun _ => true) (fun _ => false) (fun _ => [false, false])
    (fun _ => rfl) (fun i b hb => by simpa using hb) 3
  refine ⟨h1, ?_, h3 (fun _ _ => rfl)⟩
  cases hr : (supervisorRun (fun _ => false) (fun _ => true) (fun _ => false)
      (fun _ => [false, false]) 0 3 supervisorInitState).1
  · rfl
  · obtain ⟨k, _, hk⟩ := h2.mp hr
    exact absurd hk (by simp)

/-- C8: a classifier text query with an explicitly empty keyword set —
the empty string, the empty list, or a pattern compiled from the empty
string — returns false on every input text, and a query none of whose
keywords occurs in the given text returns false. -/
theorem C8_empty_and_unmatched_queries_false (hwnd : Option ℤ)
    (sensor : Except Unit String) (l t w h : ℚ) (text : String) :
    searchText hwnd sensor (.str "") (some text) l t w h = .ok false ∧
    searchText hwnd sensor (.list []) (some text) l t w h = .ok false ∧
    searchText hwnd sensor (.pattern [""]) (some text) l t w h = .ok false ∧
    (∀ s, pyIsSubstr s text = false →
      searchText hwnd sensor (.str s) (some text) l t w h = .ok false) ∧
    (∀ ks, (∀ k ∈ ks, pyIsSubstr k text = false) →
      searchText hwnd sensor (.list ks) (some text) l t w h = .ok false) ∧
    (∀ ks, (∀ k ∈ ks, pyIsSubstr k text = false) →
      searchText hwnd sensor (.pattern ks) (some text) l t w h = .ok false) := by
  refine ⟨rfl, rfl, rfl, ?_, ?_, ?_⟩
  · intro s hs
    unfold searchText
    by_cases hempty : TextQuery.isEmptyQuery (.str s) = true
    · rw [if_pos hempty]
    · rw [if_neg hempty]
      simp [searchTextInText, hs]
  · intro ks hks
    unfold searchText
    cases ks with
    | nil => rfl
    | cons k rest =>
      by_cases hempty : TextQuery.isEmptyQuery (.list (k :: rest)) = true
      · rw [if_pos hempty]
      · rw [if_neg hempty]
        have hfalse : (k :: rest).any (fun x => pyIsSubstr x text) = false :=
          List.any_eq_false.mpr (by intro x hx; simp [hks x hx])
        simp [searchTextInText, reSearchAlternation, hfalse]
  · intro ks hks
    unfold searchText
    by_cases hempty : TextQuery.isEmptyQuery (.pattern ks) = true
    · rw [if_pos hempty]
    · rw [if_neg hempty]
      cases ks with
      | nil => exact absurd rfl hempty
      | cons k rest =>
        have hfalse : (k :: rest).any (fun x => pyIsSubstr x text) = false :=
          List.any_eq_false.mpr (by intro x hx; simp [hks x hx])
        simp [searchTextInText, reSearchAlternation, hfalse]

/-- C8 witness: the empty-string, empty-list and empty-pattern queries
and two unmatched keyword queries on the concrete text `"hello"`. -/
theorem C8_empty_query_witness :
    searchText none (.ok "") (.str "") (some "hello") 0 0 1 1 = .ok false ∧
    searchText none (.ok "") (.list []) (some "hello") 0 0 1 1 = .ok false ∧
    searchText none (.ok "") (.pattern [""]) (some "hello") 0 0 1 1 = .ok false ∧
    searchText none (.ok "") (.str "x") (some "hello") 0 0 1 1 = .ok false ∧
    searchText none (.ok "") (.list ["x", "y"]) (some "hello") 0 0 1 1 = .ok false ∧
    searchText none (.ok "") (.pattern ["x", "y"]) (some "hello") 0 0 1 1 = .ok false := by
  obtain ⟨h1, h2, h3, h4, h5, h6⟩ :=
    C8_empty_and_unmatched_queries_false none (.ok "") 0 0 1 1 "hello"
  exact ⟨h1, h2, h3, h4 "x" (by decide), h5 ["x", "y"] (by decide),
    h6 ["x", "y"] (by decide)⟩

/-- C9: when the tracked game process has no window handle (`None` or
`0`, both falsy in Python), every classifier query that has to touch
the sensor — a non-empty `search_text` query without precomputed text,
or the composite lobby query without precomputed text — fails with
`UnexpectedGameState(expected=ON, actual=OFF)` instead of returning a
classification result. -/
theorem C9_sensor_unavailable_raises (hwnd : Option ℤ)
    (sensor : Except Unit String) (q : TextQuery) (l t w h : ℚ)
    (hh : hwndTruthy hwnd = false) (hq : q.isEmptyQuery = false) :
    ocrGameWindow hwnd sensor =
      .error (.unexpectedGameState (.single .ON) .OFF) ∧
    searchText hwnd sensor q none l t w h =
      .error (.unexpectedGameState (.single .ON) .OFF) ∧
    getJobSetupStatusM hwnd sensor none =
      .error (.unexpectedGameState (.single .ON) .OFF) := by
  have hocr : ocrGameWindow hwnd sensor =
      .error (.unexpectedGameState (.single .ON) .OFF) := by
    unfold ocrGameWindow
    rw [if_pos hh]
  refine ⟨hocr, ?_, ?_⟩
  · unfold searchText
    rw [if_neg (by simp [hq]), hocr]
    rfl
  · unfold getJobSetupStatusM
    rw [hocr]
    rfl

/-- C9 witness: a query for the respawn keyword with a zero window
handle (Python-falsy even though not `None`). -/
theorem C9_sensor_unavailable_witness :
    searchText (some 0) (.ok "床") (.str "床") none 0 0 1 1 =
      .error (.unexpectedGameState (.single .ON) .OFF) ∧
    getJobSetupStatusM (some 0) (.ok "床") none =
      .error (.unexpectedGameState (.single .ON) .OFF) :=
  ⟨(C9_sensor_unavailable_raises (some 0) (.ok "床") (.str "床") 0 0 1 1
      (by decide) (by decide)).2.1,
    (C9_sensor_unavailable_raises (some 0) (.ok "床") (.str "床") 0 0 1 1
      (by decide) (by decide)).2.2⟩
